import Mathlib

/-!
Verification development for the NexoraMix brand-fusion application.

The repository is a React frontend (`frontend/lib/api.js`,
`frontend/lib/supabase.js`, `components/BrandMixer.jsx`,
`components/Leaderboard.jsx`) over a Supabase/Postgres store whose schema and
`increment_votes` stored procedure are given in a SQL migration.

We shallowly embed the relevant code:
  * JS strings are lists of characters (`JsStr`), with `trimList` and
    `lowerList` mirroring `String.prototype.trim` / `toLowerCase` (ASCII).
  * The `brand_combos` relation is a list of `ComboRow`.
  * Each client operation is a pure function of its inputs plus the explicit
    outcomes of its fallible dependencies; the external calls it issues are
    returned as an explicit trace (`ExtCall` list).
-/

/-- JS strings modelled as character lists. -/
abbrev JsStr := List Char

/-- The whitespace characters removed by `String.prototype.trim`
(restricted to the common ASCII whitespace). -/
def jsIsSpace (c : Char) : Bool :=
  c = ' ' || c = '\t' || c = '\n' || c = '\r'

/-- `String.prototype.toLowerCase` on a single character (ASCII letters). -/
def jsToLower (c : Char) : Char :=
  match c with
  | 'A' => 'a' | 'B' => 'b' | 'C' => 'c' | 'D' => 'd' | 'E' => 'e'
  | 'F' => 'f' | 'G' => 'g' | 'H' => 'h' | 'I' => 'i' | 'J' => 'j'
  | 'K' => 'k' | 'L' => 'l' | 'M' => 'm' | 'N' => 'n' | 'O' => 'o'
  | 'P' => 'p' | 'Q' => 'q' | 'R' => 'r' | 'S' => 's' | 'T' => 't'
  | 'U' => 'u' | 'V' => 'v' | 'W' => 'w' | 'X' => 'x' | 'Y' => 'y'
  | 'Z' => 'z'
  | c => c

/-- `s.trim()`: strip leading and trailing whitespace. -/
def trimList (s : JsStr) : JsStr :=
  ((s.dropWhile jsIsSpace).reverse.dropWhile jsIsSpace).reverse

/-- `s.toLowerCase()`. -/
def lowerList (s : JsStr) : JsStr :=
  s.map jsToLower

theorem jsIsSpace_jsToLower (c : Char) : jsIsSpace (jsToLower c) = jsIsSpace c := by
  unfold jsToLower
  split <;> rfl

theorem map_dropWhile_eq {α β : Type} (f : α → β) (p : β → Bool) (l : List α) :
    (l.dropWhile (fun a => p (f a))).map f = (l.map f).dropWhile p := by
  induction l with
  | nil => rfl
  | cons a l ih =>
    by_cases h : p (f a) = true
    · simp [List.dropWhile_cons, h, ih]
    · simp [List.dropWhile_cons, h]

theorem lowerList_trimList (s : JsStr) :
    lowerList (trimList s) = trimList (lowerList s) := by
  have hcomp : ∀ l : JsStr,
      (l.dropWhile jsIsSpace).map jsToLower = (l.map jsToLower).dropWhile jsIsSpace := by
    intro l
    have h := map_dropWhile_eq jsToLower jsIsSpace l
    have hfun : (fun a => jsIsSpace (jsToLower a)) = jsIsSpace := by
      funext c
      exact jsIsSpace_jsToLower c
    rw [hfun] at h
    exact h
  unfold lowerList trimList
  rw [List.map_reverse, hcomp, List.map_reverse, hcomp]

/-- One row of the `brand_combos` relation, as created by the SQL migration:
`id uuid PRIMARY KEY`, `name text`, `slogan text`, `description text`,
`product1 text`, `product2 text`, `mode text DEFAULT 'competitive'`,
`votes integer DEFAULT 0`, `host_reaction text`, `image_url text`,
`compatibility_score integer DEFAULT 0`, `created_at`/`updated_at timestamptz`.
UUIDs are modelled as naturals, timestamps as naturals. -/
structure ComboRow where
  id : Nat
  name : JsStr
  slogan : JsStr
  description : JsStr
  product1 : JsStr
  product2 : JsStr
  mode : JsStr
  votes : Int
  host_reaction : JsStr
  image_url : JsStr
  compatibility_score : Int
  created_at : Nat
  updated_at : Nat
deriving Repr, DecidableEq

/-- The persisted state: the `brand_combos` relation. -/
abbrev Store := List ComboRow

/-- The `{totalCombos, totalVotes}` aggregate returned by
`supabaseOperations.getStats`. -/
structure Stats where
  totalCombos : Nat
  totalVotes : Int
deriving Repr, DecidableEq

/-! ### Combo Store operations (`frontend/lib/supabase.js` and the SQL migration) -/

/-- The ordering used by `.order('votes', { ascending: false })`:
row `a` comes before row `b` when `a.votes ≥ b.votes`. -/
def votesGE (a b : ComboRow) : Prop := b.votes ≤ a.votes

instance : DecidableRel votesGE := fun a b => Int.decLe b.votes a.votes

instance : IsTotal ComboRow votesGE :=
  ⟨fun a b => le_total b.votes a.votes⟩

instance : IsTrans ComboRow votesGE :=
  ⟨fun _ _ _ hab hbc => le_trans hbc hab⟩

/-- `supabaseOperations.getCombos(limit = 10)`:
`select('*').order('votes', { ascending: false }).limit(limit)`. -/
def getCombos (store : Store) (limit : Nat := 10) : List ComboRow :=
  (List.insertionSort votesGE store).take limit

/-- The row inserted by `supabaseOperations.createCombo` for a combo produced by
`apiService.generateCombo` (`frontend/lib/api.js` lines 52-61): it passes
`name`, `slogan`, `description`, `product1`, `product2`, `mode`, `votes: 0`
and `host_reaction`; the server fills `id`, `created_at`, `updated_at`
(and the SQL defaults `image_url` empty, `compatibility_score` 0). -/
structure ComboInsert where
  name : JsStr
  slogan : JsStr
  description : JsStr
  product1 : JsStr
  product2 : JsStr
  mode : JsStr
  votes : Int
  host_reaction : JsStr
deriving Repr, DecidableEq

/-- `supabaseOperations.createCombo(combo)`: one `insert` of one row; the
server assigns `id` and the timestamp defaults. -/
def createCombo (c : ComboInsert) (id now : Nat) (store : Store) : Store :=
  store ++ [{ id := id
              name := c.name
              slogan := c.slogan
              description := c.description
              product1 := c.product1
              product2 := c.product2
              mode := c.mode
              votes := c.votes
              host_reaction := c.host_reaction
              image_url := []
              compatibility_score := 0
              created_at := now
              updated_at := now }]

/-- The update applied to a matching row by the stored procedure
`increment_votes`: `SET votes = votes + 1, updated_at = now()`. -/
def bumpRow (now : Nat) (r : ComboRow) : ComboRow :=
  { r with votes := r.votes + 1, updated_at := now }

/-- The SQL stored procedure `increment_votes(combo_id uuid)`:
`UPDATE brand_combos SET votes = votes + 1, updated_at = now()
 WHERE id = combo_id`.  Rows whose `id` differs are untouched; the UPDATE
raises no error when no row matches. -/
def increment_votes (combo_id : Nat) (now : Nat) (store : Store) : Store :=
  store.map (fun r => if r.id = combo_id then bumpRow now r else r)

/-- External calls a client function can issue, for call-trace reasoning. -/
inductive ExtCall
  /-- `api.post('/generate', {product1, product2, mode})` -/
  | postGenerate (product1 product2 mode : JsStr)
  /-- `api.post('/vote', { combo_id })` -/
  | postVote (combo_id : Nat)
  /-- `supabase.from('brand_combos').insert(...)` -/
  | supaInsert
  /-- `supabase.from('brand_combos').select(...)` -/
  | supaSelect (columns : JsStr)
  /-- `supabase.rpc(fn, ...)` -/
  | supaRpc (fn : JsStr)
deriving Repr, DecidableEq

/-- Store-level failures (`supabase` returning a non-null `error`):
an unreachable/rejecting store, or the `NotFoundError` the spec assigns to
voting a nonexistent id. -/
inductive StoreErr
  | persistence
  | notFound
deriving Repr, DecidableEq

/-- `supabaseOperations.voteForCombo(comboId)`: issues exactly one call,
`supabase.rpc('increment_votes', { combo_id: comboId })`, and throws only
when the rpc reports an error.  The rpc itself executes `increment_votes`
as a single server-side statement; it reports no error for an unmatched id. -/
def voteForCombo (comboId : Nat) (now : Nat) (store : Store) :
    (Store × Except StoreErr Unit) × List ExtCall :=
  ((increment_votes comboId now store, Except.ok ()),
   [ExtCall.supaRpc "increment_votes".data])

/-- `supabaseOperations.getStats()`: `select('votes')`, then
`totalCombos = data.length` and
`totalVotes = data.reduce((sum, combo) => sum + combo.votes, 0)`. -/
def getStats (store : Store) : Stats :=
  { totalCombos := store.length
    totalVotes := store.foldl (fun sum c => sum + c.votes) 0 }

/-! ### The generate pipeline (`frontend/lib/api.js`, BrandMixer components) -/

/-- The combo view model carried in `response.data.combo` and held in the
`result` React state: fusion fields plus, when the combo was persisted, the
store-assigned `id` and `votes`. -/
structure ViewCombo where
  id : Option Nat
  name : JsStr
  slogan : JsStr
  flavor_description : JsStr
  components_a : JsStr
  components_b : JsStr
  mode : JsStr
  host_reaction : JsStr
  image_url : JsStr
  compatibility_score : Int
  votes : Option Int
deriving Repr, DecidableEq

/-- A fusion result produced by the Generation Client (real or fallback). -/
structure FusionResult where
  name : JsStr
  slogan : JsStr
  flavor_description : JsStr
  host_reaction : JsStr
  compatibility_score : Int
deriving Repr, DecidableEq

/-- Modelled from the spec: the Flask backend orchestrator behind
`POST /generate` is not under `src/` (only its frontend callers and the SQL
schema are).  Per spec §4.4: generation and image are infallible
(fallback/placeholder on provider failure); the Combo Store `create` is
attempted and, if it fails, the orchestrator still returns the computed
FusionResult plus image but with no `id` (not persisted); the `components`
echo the two input entity names and `mode` is echoed back. -/
def orchestratorGenerate (product1 product2 mode : JsStr)
    (fusion : FusionResult) (imageRef : JsStr)
    (createOutcome : Except StoreErr Nat) : ViewCombo :=
  { id := createOutcome.toOption
    name := fusion.name
    slogan := fusion.slogan
    flavor_description := fusion.flavor_description
    components_a := product1
    components_b := product2
    mode := mode
    host_reaction := fusion.host_reaction
    image_url := imageRef
    compatibility_score := fusion.compatibility_score
    votes := match createOutcome with
             | Except.ok _ => some 0
             | Except.error _ => none }

/-- `apiService.generateCombo(product1, product2, mode = 'competitive')`
(`frontend/lib/api.js` lines 41-70): posts the trimmed names and the mode to
`/generate`; on success it additionally tries
`supabaseOperations.createCombo`, swallowing any failure of that insert
(`catch (supabaseError) { console.warn(...) }`), and returns `response.data`
unchanged; on backend failure it throws `'Failed to generate combo'`.
`fusion`, `imageRef`, `backendCreate` feed the spec-modelled orchestrator;
`frontInsert` is the outcome of the frontend's own insert; `backendUp`
is whether the `/generate` request itself succeeds.  The JS default
`mode = 'competitive'` is the trailing default argument. -/
def apiGenerateCombo (product1 product2 : JsStr)
    (fusion : FusionResult) (imageRef : JsStr)
    (backendCreate : Except StoreErr Nat)
    (frontInsert : Except StoreErr Unit)
    (backendUp : Bool)
    (mode : JsStr := "competitive".data) :
    Except JsStr ViewCombo × List ExtCall :=
  if backendUp then
    let combo := orchestratorGenerate (trimList product1) (trimList product2)
      mode fusion imageRef backendCreate
    match frontInsert with
    | Except.ok _ =>
        (Except.ok combo,
         [ExtCall.postGenerate (trimList product1) (trimList product2) mode,
          ExtCall.supaInsert])
    | Except.error _ =>
        (Except.ok combo,
         [ExtCall.postGenerate (trimList product1) (trimList product2) mode,
          ExtCall.supaInsert])
  else
    (Except.error "Failed to generate combo".data,
     [ExtCall.postGenerate (trimList product1) (trimList product2) mode])

/-- The insert record assembled by `apiService.generateCombo` lines 52-61:
`votes: 0` is passed explicitly; `description` is the combo's
`flavor_description` and `product1`/`product2` are `components.a`/`.b`. -/
def comboInsertOf (combo : ViewCombo) : ComboInsert :=
  { name := combo.name
    slogan := combo.slogan
    description := combo.flavor_description
    product1 := combo.components_a
    product2 := combo.components_b
    mode := combo.mode
    votes := 0
    host_reaction := combo.host_reaction }

/-- Outcome of a BrandMixer `handleGenerate` run: an early validation error
(`setError`, no call made), a displayed result, or a surfaced failure. -/
inductive HGOutcome
  | validationError (msg : JsStr)
  | success (combo : ViewCombo)
  | failure (msg : JsStr)
deriving Repr, DecidableEq

/-- `handleGenerate` of the BrandMixer component (`src/unnamed/part_002`
lines 67-91): rejects empty (after trim) names, then names equal after
trim-and-lowercase, before calling `apiService.generateCombo`. -/
def handleGenerate (product1 product2 mode : JsStr)
    (fusion : FusionResult) (imageRef : JsStr)
    (backendCreate : Except StoreErr Nat)
    (frontInsert : Except StoreErr Unit)
    (backendUp : Bool) : List ExtCall × HGOutcome :=
  if trimList product1 = [] ∨ trimList product2 = [] then
    ([], HGOutcome.validationError "Please enter both brand names".data)
  else if lowerList (trimList product1) = lowerList (trimList product2) then
    ([], HGOutcome.validationError "Please select two different brands".data)
  else
    match apiGenerateCombo product1 product2 fusion imageRef backendCreate
        frontInsert backendUp mode with
    | (Except.ok combo, calls) => (calls, HGOutcome.success combo)
    | (Except.error msg, calls) => (calls, HGOutcome.failure msg)

/-- `handleGenerate` of `frontend/components/BrandMixer.jsx` lines 69-93:
same shape, but the distinctness check compares the *untrimmed* lowercased
names (`product1.toLowerCase() === product2.toLowerCase()`). -/
def handleGenerateFM (product1 product2 mode : JsStr)
    (fusion : FusionResult) (imageRef : JsStr)
    (backendCreate : Except StoreErr Nat)
    (frontInsert : Except StoreErr Unit)
    (backendUp : Bool) : List ExtCall × HGOutcome :=
  if trimList product1 = [] ∨ trimList product2 = [] then
    ([], HGOutcome.validationError "Please enter both brand names".data)
  else if lowerList product1 = lowerList product2 then
    ([], HGOutcome.validationError "Please select two different brands".data)
  else
    match apiGenerateCombo product1 product2 fusion imageRef backendCreate
        frontInsert backendUp mode with
    | (Except.ok combo, calls) => (calls, HGOutcome.success combo)
    | (Except.error msg, calls) => (calls, HGOutcome.failure msg)

/-- `handleVote` of the BrandMixer component (`src/unnamed/part_002`
lines 93-105): `if (!result?.id) return` — with no persisted id nothing is
called and the state is untouched; otherwise `apiService.voteForCombo` is
invoked (one supabase rpc on the healthy path) and the local vote count is
bumped optimistically. -/
def handleVote (result : Option ViewCombo) : List ExtCall × Option ViewCombo :=
  match result with
  | none => ([], none)
  | some r =>
    match r.id with
    | none => ([], some r)
    | some _ =>
        ([ExtCall.supaRpc "increment_votes".data],
         some { r with votes := some (r.votes.getD 0 + 1) })

/-! ### Stats accessor and the Leaderboard average (`api.js`, `Leaderboard.jsx`) -/

/-- `apiService.getStats()` (`frontend/lib/api.js` lines 103-110): returns
the supabase stats on success and `{ totalCombos: 0, totalVotes: 0 }` on any
failure — the error is caught, never rethrown. -/
def apiGetStats (supabaseOutcome : Except StoreErr Stats) : Stats :=
  match supabaseOutcome with
  | Except.ok s => s
  | Except.error _ => { totalCombos := 0, totalVotes := 0 }

/-- The whole client stats pipeline: when the store is reachable the
supabase query yields `getStats store`; otherwise it throws and
`apiService.getStats` absorbs the failure. -/
def apiGetStatsRun (store : Store) (reachable : Bool) : Stats :=
  apiGetStats (if reachable then Except.ok (getStats store) else Except.error StoreErr.persistence)

/-- A JS number as displayed: an integer, `NaN`, or an infinity. -/
inductive JsDisplay
  | num (n : Int)
  | notANumber
  | infinite
deriving Repr, DecidableEq

/-- `Math.round(a / b)` for integer `a` and natural `b` under JS semantics:
`0/0` is `NaN`, `a/0` with `a ≠ 0` is an infinity, and otherwise
`Math.round` is floor of `a/b + 1/2`, i.e. `⌊(2a + b) / (2b)⌋`. -/
def jsRoundDiv (a : Int) (b : Nat) : JsDisplay :=
  if b = 0 then
    if a = 0 then JsDisplay.notANumber else JsDisplay.infinite
  else
    JsDisplay.num (Int.fdiv (2 * a + b) (2 * b))

/-- The Avg Votes figure of `Leaderboard.jsx` (line 153):
`combos.length > 0 ? Math.round(stats.totalVotes / stats.totalCombos) : 0`.
Note the guard is on the fetched leaderboard list, while the divisor is the
independently fetched `stats.totalCombos`. -/
def avgVotesDisplay (combos : List ComboRow) (stats : Stats) : JsDisplay :=
  if 0 < combos.length then
    jsRoundDiv stats.totalVotes stats.totalCombos
  else
    JsDisplay.num 0

/-! ### Store history: the reachable states of `brand_combos` -/

/-- The operations that mutate `brand_combos` anywhere in the client code:
the insert issued by `apiService.generateCombo` and the
`increment_votes` rpc issued by `supabaseOperations.voteForCombo`. -/
inductive StoreOp
  | create (combo : ViewCombo) (id : Nat) (now : Nat)
  | vote (combo_id : Nat) (now : Nat)
deriving Repr

/-- Apply one mutation to the relation. -/
def applyOp (s : Store) : StoreOp → Store
  | StoreOp.create combo id now => createCombo (comboInsertOf combo) id now s
  | StoreOp.vote combo_id now => increment_votes combo_id now s

/-- The store state after a history of operations, starting empty. -/
def runOps (ops : List StoreOp) : Store :=
  ops.foldl applyOp []

/-! ### Sample data for concrete evaluations -/

/-- A concrete row with a given id and vote count (other fields blank). -/
def exampleRow (id : Nat) (v : Int) : ComboRow :=
  { id := id, name := [], slogan := [], description := [], product1 := [],
    product2 := [], mode := [], votes := v, host_reaction := [], image_url := [],
    compatibility_score := 0, created_at := 0, updated_at := 0 }

/-- A store whose rows carry votes `[5, 1, 9, 3]` (the spec's example). -/
def exampleStore : Store :=
  [exampleRow 1 5, exampleRow 2 1, exampleRow 3 9, exampleRow 4 3]

/-- A concrete fusion result. -/
def sampleFusion : FusionResult :=
  { name := "NikeAdidas".data, slogan := [], flavor_description := [],
    host_reaction := [], compatibility_score := 42 }

/-! ### Theorems -/

theorem foldl_add_votes (store : Store) (init : Int) :
    store.foldl (fun sum c => sum + c.votes) init
      = init + (store.map (fun r => r.votes)).sum := by
  induction store generalizing init with
  | nil => simp
  | cons r t ih =>
    simp only [List.foldl_cons, List.map_cons, List.sum_cons, ih]
    ring

/-- C6: `stats` returns `totalCombos` equal to the number of rows and
`totalVotes` equal to the sum of the `votes` column over all rows; on the
empty store it returns `{totalCombos := 0, totalVotes := 0}`. -/
theorem getStats_counts_and_sums :
    (∀ store : Store,
        (getStats store).totalCombos = store.length ∧
        (getStats store).totalVotes = (store.map (fun r => r.votes)).sum) ∧
    getStats [] = { totalCombos := 0, totalVotes := 0 } := by
  constructor
  · intro store
    refine ⟨rfl, ?_⟩
    unfold getStats
    simpa using foldl_add_votes store 0
  · rfl

/-- C5: `getCombos` returns at most `limit` rows, sorted by `votes`
descending; the limit defaults to 10 when not supplied; on the spec's
example store (votes `[5, 1, 9, 3]`) with limit 3 it yields votes
`[9, 5, 3]`. -/
theorem getCombos_sorted_and_limited :
    (∀ (store : Store) (limit : Nat),
        (getCombos store limit).length ≤ limit ∧
        List.Sorted votesGE (getCombos store limit)) ∧
    (∀ store : Store, getCombos store = getCombos store 10) ∧
    (getCombos exampleStore 3).map (fun r => r.votes) = [9, 5, 3] := by
  refine ⟨fun store limit => ⟨?_, ?_⟩, fun store => rfl, by decide⟩
  · exact List.length_take_le limit _
  · exact ((List.sorted_insertionSort votesGE store).sublist
      (List.take_sublist limit _))

/-- C10: the client stats accessor is total: with a reachable store it
returns that store's aggregate, and on any store failure it returns
`{totalCombos := 0, totalVotes := 0}` instead of propagating the error. -/
theorem apiGetStats_never_throws :
    (∀ store : Store,
        apiGetStatsRun store true = getStats store ∧
        (apiGetStatsRun store true).totalCombos = store.length) ∧
    (∀ store : Store,
        apiGetStatsRun store false = { totalCombos := 0, totalVotes := 0 }) ∧
    (∀ e : StoreErr,
        apiGetStats (Except.error e) = { totalCombos := 0, totalVotes := 0 }) := by
  refine ⟨fun store => ⟨rfl, rfl⟩, fun store => rfl, fun e => rfl⟩

/-- C2: one `voteForCombo` call maps the row list pointwise: the row at each
position keeps every field except that a row matching the id gets
`votes + 1` and a refreshed `updated_at`; no other row changes and the
length is preserved; and the client trace is exactly one call, the
`increment_votes` rpc — a single server-side statement, with no preceding
read (no select) and no client-side write-back (no insert/update call). -/
theorem vote_increments_exactly_one (store : Store) (cid now i : Nat)
    (r : ComboRow) (hr : store[i]? = some r) :
    ((voteForCombo cid now store).1.1)[i]? =
      some (if r.id = cid then { r with votes := r.votes + 1, updated_at := now }
            else r) ∧
    (voteForCombo cid now store).1.1.length = store.length ∧
    (voteForCombo cid now store).2 = [ExtCall.supaRpc "increment_votes".data] := by
  refine ⟨?_, ?_, rfl⟩
  · show (store.map fun a => if a.id = cid then bumpRow now a else a)[i]? = _
    rw [List.getElem?_map, hr]
    by_cases h : r.id = cid
    · simp [h, bumpRow]
    · simp [h]
  · show (store.map fun a => if a.id = cid then bumpRow now a else a).length = _
    exact List.length_map _ _

/-- Witness for C2 at a concrete input: store `[exampleRow 1 5]`, voting
id 1 at time 7 bumps the single row to votes 6 / updated_at 7. -/
theorem vote_increments_exactly_one_witness :
    ([exampleRow 1 5] : Store)[0]? = some (exampleRow 1 5) ∧
    ((voteForCombo 1 7 [exampleRow 1 5]).1.1)[0]? =
      some (if (exampleRow 1 5).id = 1
            then { exampleRow 1 5 with
                   votes := (exampleRow 1 5).votes + 1
                   updated_at := 7 }
            else exampleRow 1 5) ∧
    (voteForCombo 1 7 [exampleRow 1 5]).2 =
      [ExtCall.supaRpc "increment_votes".data] := by
  have h := vote_increments_exactly_one [exampleRow 1 5] 1 7 0 (exampleRow 1 5) (by decide)
  exact ⟨by decide, h.1, h.2.2⟩

/-- C4 counterexample: voting id 2 against a store holding only id 1
completes with `Except.ok` and an unchanged store — no `NotFoundError`
(the SQL `UPDATE ... WHERE id = combo_id` simply matches zero rows). -/
theorem vote_missing_id_not_notFound :
    (voteForCombo 2 7 [exampleRow 1 5]).1.2 = Except.ok () ∧
    (voteForCombo 2 7 [exampleRow 1 5]).1.1 = [exampleRow 1 5] ∧
    (voteForCombo 2 7 [exampleRow 1 5]).1.2 ≠ Except.error StoreErr.notFound := by
  refine ⟨rfl, by decide, ?_⟩
  intro h
  exact Except.noConfusion h

/-- C4 amended: for every id matching no existing row, the vote operation
completes silently — `Except.ok` — and changes no row. -/
theorem vote_missing_id_silent (store : Store) (cid now : Nat)
    (h : ∀ r ∈ store, r.id ≠ cid) :
    (voteForCombo cid now store).1.1 = store ∧
    (voteForCombo cid now store).1.2 = Except.ok () := by
  refine ⟨?_, rfl⟩
  show (store.map fun a => if a.id = cid then bumpRow now a else a) = store
  have : ∀ a ∈ store, (if a.id = cid then bumpRow now a else a) = a := by
    intro a ha
    simp [h a ha]
  calc (store.map fun a => if a.id = cid then bumpRow now a else a)
      = store.map id := List.map_congr_left this
    _ = store := List.map_id store

/-- Witness for the amended C4 at a concrete input. -/
theorem vote_missing_id_silent_witness :
    (∀ r ∈ ([exampleRow 1 5] : Store), r.id ≠ 2) ∧
    (voteForCombo 2 7 [exampleRow 1 5]).1.1 = [exampleRow 1 5] ∧
    (voteForCombo 2 7 [exampleRow 1 5]).1.2 = Except.ok () := by
  have h := vote_missing_id_silent [exampleRow 1 5] 2 7 (by decide)
  exact ⟨by decide, h.1, h.2⟩

theorem applyOp_preserves_nonneg (s : Store) (op : StoreOp)
    (h : ∀ r ∈ s, 0 ≤ r.votes) : ∀ r ∈ applyOp s op, 0 ≤ r.votes := by
  cases op with
  | create combo id now =>
    intro r hr
    unfold applyOp createCombo at hr
    rcases List.mem_append.1 hr with h1 | h2
    · exact h r h1
    · rw [List.mem_singleton] at h2
      subst h2
      simp [comboInsertOf]
  | vote combo_id now =>
    intro r hr
    unfold applyOp increment_votes at hr
    rcases List.mem_map.1 hr with ⟨a, ha, rfl⟩
    by_cases hid : a.id = combo_id
    · have := h a ha
      simp only [hid, if_true, bumpRow]
      omega
    · simp only [hid, if_false]
      exact h a ha

theorem foldl_applyOp_nonneg (ops : List StoreOp) (s : Store)
    (h : ∀ r ∈ s, 0 ≤ r.votes) : ∀ r ∈ ops.foldl applyOp s, 0 ≤ r.votes := by
  induction ops generalizing s with
  | nil => exact h
  | cons op t ih => exact ih (applyOp s op) (applyOp_preserves_nonneg s op h)

/-- C8: every create inserts its row with `votes = 0` (the client passes
`votes: 0` explicitly and the schema default is 0), and in every store state
reachable from empty by the two mutations the code performs — create and the
`increment_votes` rpc — every row's vote counter is non-negative: the vote
path only ever adds 1. -/
theorem votes_initialized_zero_and_nonneg :
    (∀ (combo : ViewCombo) (id now : Nat) (s : Store),
        ∃ row, applyOp s (StoreOp.create combo id now) = s ++ [row] ∧
          row.votes = 0) ∧
    (∀ ops : List StoreOp, ∀ r ∈ runOps ops, 0 ≤ r.votes) := by
  constructor
  · intro combo id now s
    exact ⟨_, rfl, rfl⟩
  · intro ops
    exact foldl_applyOp_nonneg ops [] (fun r hr => absurd hr (List.not_mem_nil r))

/-- A concrete view combo for witnesses. -/
def sampleView : ViewCombo :=
  { id := none, name := "AdiNike".data, slogan := [], flavor_description := [],
    components_a := "Nike".data, components_b := "Adidas".data,
    mode := "fusion".data, host_reaction := [], image_url := [],
    compatibility_score := 42, votes := none }

/-- A concrete history: one create (at id 1, time 7) then one vote (time 8). -/
def sampleOps : List StoreOp :=
  [StoreOp.create sampleView 1 7, StoreOp.vote 1 8]

/-- The single row reached by `sampleOps`: created with votes 0 at time 7,
then bumped once at time 8. -/
def sampleStoredRow : ComboRow :=
  { id := 1, name := "AdiNike".data, slogan := [], description := [],
    product1 := "Nike".data, product2 := "Adidas".data, mode := "fusion".data,
    votes := 1, host_reaction := [], image_url := [], compatibility_score := 0,
    created_at := 7, updated_at := 8 }

/-- Witness for C8: the concrete row left by `sampleOps` is in the reachable
state and its vote count is non-negative. -/
theorem votes_initialized_zero_and_nonneg_witness :
    sampleStoredRow ∈ runOps sampleOps ∧ 0 ≤ sampleStoredRow.votes :=
  ⟨by decide, votes_initialized_zero_and_nonneg.2 sampleOps sampleStoredRow (by decide)⟩

/-- C9 counterexample: the Leaderboard average guards on the fetched combo
list, not on `stats.totalCombos`.  With a nonempty list and
`stats = {totalCombos := 0, totalVotes := 0}` — the component's initial
stats state, which persists when the stats fetch fails while the
leaderboard fetch succeeds — the division by `totalCombos = 0` is performed
and the display is `NaN`, not 0. -/
theorem avgVotes_divides_by_zero :
    avgVotesDisplay [exampleRow 1 5] { totalCombos := 0, totalVotes := 0 } =
      JsDisplay.notANumber ∧
    JsDisplay.notANumber ≠ JsDisplay.num 0 := by
  exact ⟨rfl, by decide⟩

/-- C9 amended: the divide-by-zero guard is the leaderboard list length.
With an empty list the display is 0 and no division occurs — in particular,
whenever the list and the stats are consistent views of the same store and
`totalCombos = 0`, the display is 0.  But with a nonempty list while
`stats.totalCombos = 0`, the division is performed: `NaN` when
`totalVotes = 0`, an infinity otherwise. -/
theorem avgVotes_guarded_by_list (stats : Stats) :
    avgVotesDisplay [] stats = JsDisplay.num 0 ∧
    (∀ (store : Store) (limit : Nat), (getStats store).totalCombos = 0 →
        avgVotesDisplay (getCombos store limit) (getStats store) =
          JsDisplay.num 0) ∧
    (∀ combos : List ComboRow, 0 < combos.length → stats.totalCombos = 0 →
        avgVotesDisplay combos stats =
          if stats.totalVotes = 0 then JsDisplay.notANumber
          else JsDisplay.infinite) := by
  refine ⟨rfl, ?_, ?_⟩
  · intro store limit h
    have hempty : store = [] := List.length_eq_zero.1 h
    subst hempty
    simp [getCombos, avgVotesDisplay]
  · intro combos hlen h0
    unfold avgVotesDisplay jsRoundDiv
    rw [if_pos hlen, h0]
    simp

/-- Witness for the amended C9 at concrete inputs. -/
theorem avgVotes_guarded_by_list_witness :
    ((getStats ([] : Store)).totalCombos = 0 ∧
      avgVotesDisplay (getCombos ([] : Store) 10) (getStats ([] : Store)) =
        JsDisplay.num 0) ∧
    (0 < ([exampleRow 1 5] : List ComboRow).length ∧
      (Stats.mk 0 0).totalCombos = 0 ∧
      avgVotesDisplay [exampleRow 1 5] (Stats.mk 0 0) =
        if (Stats.mk 0 0).totalVotes = 0 then JsDisplay.notANumber
        else JsDisplay.infinite) := by
  constructor
  · exact ⟨rfl, (avgVotes_guarded_by_list (getStats [])).2.1 [] 10 rfl⟩
  · exact ⟨by decide, rfl,
      (avgVotes_guarded_by_list (Stats.mk 0 0)).2.2 [exampleRow 1 5] (by decide) rfl⟩

/-- C3: whenever the two entered names are equal case-insensitively — or a
name is empty (blank after trimming) — both BrandMixer `handleGenerate`
implementations stop at validation with an error message and an empty call
trace: no generation, image, or store call is attempted. -/
theorem validation_short_circuits (product1 product2 mode : JsStr)
    (fusion : FusionResult) (imageRef : JsStr)
    (backendCreate : Except StoreErr Nat) (frontInsert : Except StoreErr Unit)
    (backendUp : Bool)
    (h : lowerList product1 = lowerList product2 ∨
         trimList product1 = [] ∨ trimList product2 = []) :
    ((handleGenerate product1 product2 mode fusion imageRef backendCreate
        frontInsert backendUp).1 = [] ∧
      ∃ msg, (handleGenerate product1 product2 mode fusion imageRef backendCreate
        frontInsert backendUp).2 = HGOutcome.validationError msg) ∧
    ((handleGenerateFM product1 product2 mode fusion imageRef backendCreate
        frontInsert backendUp).1 = [] ∧
      ∃ msg, (handleGenerateFM product1 product2 mode fusion imageRef backendCreate
        frontInsert backendUp).2 = HGOutcome.validationError msg) := by
  have hlow : trimList product1 ≠ [] → trimList product2 ≠ [] →
      lowerList product1 = lowerList product2 →
      lowerList (trimList product1) = lowerList (trimList product2) := by
    intro _ _ hl
    rw [lowerList_trimList, lowerList_trimList, hl]
  constructor
  · unfold handleGenerate
    by_cases hempty : trimList product1 = [] ∨ trimList product2 = []
    · rw [if_pos hempty]
      exact ⟨rfl, _, rfl⟩
    · rw [if_neg hempty]
      push_neg at hempty
      have hl : lowerList product1 = lowerList product2 := by
        rcases h with h | h | h
        · exact h
        · exact absurd h hempty.1
        · exact absurd h hempty.2
      rw [if_pos (hlow hempty.1 hempty.2 hl)]
      exact ⟨rfl, _, rfl⟩
  · unfold handleGenerateFM
    by_cases hempty : trimList product1 = [] ∨ trimList product2 = []
    · rw [if_pos hempty]
      exact ⟨rfl, _, rfl⟩
    · rw [if_neg hempty]
      push_neg at hempty
      have hl : lowerList product1 = lowerList product2 := by
        rcases h with h | h | h
        · exact h
        · exact absurd h hempty.1
        · exact absurd h hempty.2
      rw [if_pos hl]
      exact ⟨rfl, _, rfl⟩

/-- Witness for C3 at the concrete input `("Nike", "NIKE")`, equal
case-insensitively: both handlers report a validation error with an empty
call trace. -/
theorem validation_short_circuits_witness :
    (lowerList "Nike".data = lowerList "NIKE".data ∨
      trimList "Nike".data = [] ∨ trimList "NIKE".data = []) ∧
    (handleGenerate "Nike".data "NIKE".data "fusion".data sampleFusion []
        (Except.ok 1) (Except.ok ()) true).1 = [] ∧
    (handleGenerateFM "Nike".data "NIKE".data "fusion".data sampleFusion []
        (Except.ok 1) (Except.ok ()) true).1 = [] := by
  have h := validation_short_circuits "Nike".data "NIKE".data "fusion".data
    sampleFusion [] (Except.ok 1) (Except.ok ()) true (Or.inl (by decide))
  exact ⟨Or.inl (by decide), h.1.1, h.2.1⟩

/-- C1: if the Combo Store create step fails (both the orchestrator's create
and the frontend's own insert), `generateCombo` still returns the computed
result — the fusion fields, the echoed components, the image reference —
with `id = none` and no error propagating to the caller; a subsequent
`handleVote` on that id-less result issues no external call and leaves the
result untouched. -/
theorem create_failure_degrades_gracefully
    (product1 product2 mode : JsStr) (fusion : FusionResult) (imageRef : JsStr)
    (e eFront : StoreErr) :
    ∃ combo : ViewCombo,
      (apiGenerateCombo product1 product2 fusion imageRef (Except.error e)
          (Except.error eFront) true mode).1 = Except.ok combo ∧
      combo.id = none ∧
      combo.name = fusion.name ∧
      combo.components_a = trimList product1 ∧
      combo.components_b = trimList product2 ∧
      combo.image_url = imageRef ∧
      handleVote (some combo) = ([], some combo) := by
  refine ⟨orchestratorGenerate (trimList product1) (trimList product2) mode
    fusion imageRef (Except.error e), rfl, rfl, rfl, rfl, rfl, rfl, rfl⟩

/-- C7: for valid, case-insensitively distinct inputs, the generate pipeline
returns a combo whose components echo exactly the two supplied names trimmed
of surrounding whitespace, and whose mode equals the supplied mode — or
`'competitive'` when the mode argument is omitted. -/
theorem generateCombo_echoes_inputs
    (product1 product2 mode : JsStr) (fusion : FusionResult) (imageRef : JsStr)
    (backendCreate : Except StoreErr Nat) (frontInsert : Except StoreErr Unit)
    (hA : trimList product1 ≠ []) (hB : trimList product2 ≠ [])
    (hdistinct : lowerList (trimList product1) ≠ lowerList (trimList product2)) :
    (∃ combo : ViewCombo,
        (apiGenerateCombo product1 product2 fusion imageRef backendCreate
            frontInsert true mode).1 = Except.ok combo ∧
        combo.components_a = trimList product1 ∧
        combo.components_b = trimList product2 ∧
        combo.mode = mode) ∧
    (∃ combo : ViewCombo,
        (apiGenerateCombo product1 product2 fusion imageRef backendCreate
            frontInsert true).1 = Except.ok combo ∧
        combo.mode = "competitive".data) := by
  cases frontInsert with
  | ok u =>
      exact ⟨⟨orchestratorGenerate (trimList product1) (trimList product2) mode
          fusion imageRef backendCreate, rfl, rfl, rfl, rfl⟩,
        ⟨orchestratorGenerate (trimList product1) (trimList product2)
          "competitive".data fusion imageRef backendCreate, rfl, rfl⟩⟩
  | error err =>
      exact ⟨⟨orchestratorGenerate (trimList product1) (trimList product2) mode
          fusion imageRef backendCreate, rfl, rfl, rfl, rfl⟩,
        ⟨orchestratorGenerate (trimList product1) (trimList product2)
          "competitive".data fusion imageRef backendCreate, rfl, rfl⟩⟩

/-- Witness for C7 at `("Nike", " Adidas ", "fusion")`: the echoed
components are the trimmed names and the mode is echoed (or defaulted). -/
theorem generateCombo_echoes_inputs_witness :
    (trimList "Nike".data ≠ [] ∧ trimList " Adidas ".data ≠ [] ∧
      lowerList (trimList "Nike".data) ≠ lowerList (trimList " Adidas ".data)) ∧
    (∃ combo : ViewCombo,
        (apiGenerateCombo "Nike".data " Adidas ".data sampleFusion []
            (Except.ok 1) (Except.ok ()) true "fusion".data).1 = Except.ok combo ∧
        combo.components_a = trimList "Nike".data ∧
        combo.components_b = trimList " Adidas ".data ∧
        combo.mode = "fusion".data) := by
  have h := generateCombo_echoes_inputs "Nike".data " Adidas ".data
    "fusion".data sampleFusion [] (Except.ok 1) (Except.ok ())
    (by decide) (by decide) (by decide)
  exact ⟨⟨by decide, by decide, by decide⟩, h.1⟩
